import Mathlib

/-!
Verification development for the GPT webhook server
(Express + MongoDB ingestion endpoint, source in part_001 / index.ts).

The TypeScript source is shallowly embedded: request handling becomes pure
functions from a request value, a clock reading and the persistence state to
a response and a new persistence state; MongoDB and the process environment
are modelled by explicit outcome parameters (connect succeeded or not,
insert succeeded or not, and so on), since the server only branches on
success or failure of those calls.
-/

namespace GPTWebhook

/-! ### JSON values

Model of the JavaScript values the server manipulates: parsed JSON bodies,
header maps and query maps.  Numbers are modelled as integers (no claim
depends on float behaviour).  Objects keep insertion order, as JS objects
and JSON.stringify do. -/

inductive Json where
  | null : Json
  | bool : Bool → Json
  | num : Int → Json
  | str : String → Json
  | arr : List Json → Json
  | obj : List (String × Json) → Json
deriving Repr

/-- JavaScript truthiness of a JSON value: null, false, 0 and the empty
string are falsy; every object and array is truthy. -/
def Json.truthy : Json → Bool
  | .null => false
  | .bool b => b
  | .num n => n != 0
  | .str s => s != ""
  | .arr _ => true
  | .obj _ => true

/-- Property access `j.k` on a JS value: the first binding of the key in an
object, undefined (`none`) otherwise. -/
def Json.getField (j : Json) (k : String) : Option Json :=
  match j with
  | .obj fields => fields.lookup k
  | _ => none

/-- Evaluation of `a || b` where `a` is a possibly-undefined JS value: `a`
when truthy, else `b`. -/
def jsOrElse (a : Option Json) (b : Json) : Json :=
  match a with
  | some j => if j.truthy then j else b
  | none => b

/-- Truthiness of a possibly-undefined JS value: undefined is falsy. -/
def optTruthy : Option Json → Bool
  | none => false
  | some j => j.truthy

/-- Digits of a natural number, most significant first.  The fuel only
bounds the recursion depth; `n + 1` steps always suffice, since the
argument shrinks by a factor of ten per step. -/
def natReprAux : Nat → Nat → List Char
  | 0, _ => []
  | fuel + 1, n =>
      if n < 10 then [Char.ofNat (48 + n)]
      else natReprAux fuel (n / 10) ++ [Char.ofNat (48 + n % 10)]

/-- Decimal rendering of a natural number, as JS number-to-string. -/
def natRepr (n : Nat) : String :=
  ⟨natReprAux (n + 1) n⟩

/-- Decimal rendering of an integer. -/
def intRepr (n : Int) : String :=
  if n < 0 then "-" ++ natRepr n.natAbs else natRepr n.toNat

/-- JSON string escaping for the characters JSON.stringify always escapes
(quote, backslash, and the common control characters). -/
def escapeChar (c : Char) : List Char :=
  if c = '"' then ['\\', '"']
  else if c = '\\' then ['\\', '\\']
  else if c = '\n' then ['\\', 'n']
  else if c = '\r' then ['\\', 'r']
  else if c = '\t' then ['\\', 't']
  else [c]

def escapeString (s : String) : String :=
  ⟨s.data.flatMap escapeChar⟩

def quoteString (s : String) : String :=
  "\"" ++ escapeString s ++ "\""

mutual

/-- Serialization as `JSON.stringify` with no spacing argument, the way the
handler calls it. -/
def Json.stringify : Json → String
  | .null => "null"
  | .bool true => "true"
  | .bool false => "false"
  | .num n => intRepr n
  | .str s => quoteString s
  | .arr xs => "[" ++ stringifyList xs ++ "]"
  | .obj fs => "\x7b" ++ stringifyFields fs ++ "\x7d"

def stringifyList : List Json → String
  | [] => ""
  | [x] => Json.stringify x
  | x :: y :: xs => Json.stringify x ++ "," ++ stringifyList (y :: xs)

def stringifyFields : List (String × Json) → String
  | [] => ""
  | [(k, v)] => quoteString k ++ ":" ++ Json.stringify v
  | (k, v) :: f :: fs =>
      quoteString k ++ ":" ++ Json.stringify v ++ "," ++ stringifyFields (f :: fs)

end

/-! ### Requests, records and responses -/

/-- The parts of an Express request the handler reads. -/
structure Req where
  headers : Json
  body : Json
  query : Json
  method : String
  url : String
  ip : Json
  userAgent : Json
deriving Repr

/-- The WebhookRequest interface: the record built per request and handed to
the persistence layer.  `id` models the optional `_id`, assigned only by a
successful insert. -/
structure WebhookRequest where
  id : Option Nat
  message : Json
  userInfo : Json
  timestamp : Nat
  fullRequest : Json
deriving Repr

/-- The expression `webhookData.message || webhookData.text ||
JSON.stringify(webhookData)`. -/
def deriveMessage (body : Json) : Json :=
  jsOrElse (body.getField "message")
    (jsOrElse (body.getField "text") (.str body.stringify))

/-- The expression `webhookData.user || webhookData.userInfo ||` the
synthesized ip/userAgent object. -/
def deriveUserInfo (req : Req) : Json :=
  jsOrElse (req.body.getField "user")
    (jsOrElse (req.body.getField "userInfo")
      (.obj [("ip", req.ip), ("userAgent", req.userAgent)]))

/-- The fullRequest snapshot: headers, body, query, method, url. -/
def fullRequestOf (req : Req) : Json :=
  .obj [("headers", req.headers), ("body", req.body), ("query", req.query),
        ("method", .str req.method), ("url", .str req.url)]

/-- The WebhookRequest the handler constructs at receipt time `now`
(before any persistence attempt, so `id` is unset). -/
def buildRecord (req : Req) (now : Nat) : WebhookRequest :=
  { id := none
    message := deriveMessage req.body
    userInfo := deriveUserInfo req
    timestamp := now
    fullRequest := fullRequestOf req }

/-- The webhooks collection: documents with store-assigned identifiers, plus
the counter the store draws fresh identifiers from. -/
structure Store where
  nextId : Nat
  docs : List (Nat × WebhookRequest)
deriving Repr

/-- The `insertOne` call: append the document with a fresh store-assigned id, return
the new store and the inserted id. -/
def Store.insertOne (s : Store) (r : WebhookRequest) : Store × Nat :=
  ({ nextId := s.nextId + 1,
     docs := s.docs ++ [(s.nextId, { r with id := some s.nextId })] },
   s.nextId)

/-- Outcome of one `insertOne` call against a reachable store. -/
inductive InsertOutcome where
  | ok : InsertOutcome
  | err : InsertOutcome
deriving Repr, DecidableEq

/-- The JSON body the server sends back, together with the HTTP status.
`timestamp` and `id` are optional fields (an `undefined` field is dropped
from the serialized response, which is how an absent `id` appears). -/
structure WebhookResponse where
  status : Nat
  success : Bool
  message : String
  timestamp : Option Nat
  id : Option Nat
  error : Option String
deriving Repr

/-- The try-block of `handleWebhook`: build the record, attempt the insert
when a collection is bound (`conn`), swallow an insert failure, and always
answer 200 with `success: true`, the record timestamp and the optionally
assigned id. -/
def handleWebhook (req : Req) (now : Nat) (conn : Option Store)
    (outcome : InsertOutcome) : Option Store × WebhookResponse :=
  let record := buildRecord req now
  match conn, outcome with
  | some store, .ok =>
      let inserted := store.insertOne record
      (some inserted.1,
       { status := 200, success := true,
         message := "Webhook received and processed",
         timestamp := some record.timestamp, id := some inserted.2,
         error := none })
  | some store, .err =>
      (some store,
       { status := 200, success := true,
         message := "Webhook received and processed",
         timestamp := some record.timestamp, id := record.id,
         error := none })
  | none, _ =>
      (none,
       { status := 200, success := true,
         message := "Webhook received and processed",
         timestamp := some record.timestamp, id := record.id,
         error := none })

/-- The catch-block of `handleWebhook`: a 500 whose `error` field is the
thrown message when the exception is an Error, else the string
"Unknown error" — the environment is not consulted. -/
def handleWebhookCatch (errMessage : Option String) : WebhookResponse :=
  { status := 500, success := false,
    message := "Error processing webhook",
    timestamp := none, id := none,
    error := some (match errMessage with
      | some m => m
      | none => "Unknown error") }

/-- One run of `handleWebhook` including its try/catch: `exn = some m`
means an unexpected exception (with message `m`, `none` for a non-Error
throw) interrupts the try-block; `exn = none` is the normal path.
`nodeEnv` is `process.env.NODE_ENV`; the catch-block ignores it. -/
def handleWebhookRun (_nodeEnv : Option String) (exn : Option (Option String))
    (req : Req) (now : Nat) (conn : Option Store) (outcome : InsertOutcome) :
    Option Store × WebhookResponse :=
  match exn with
  | some errMessage => (conn, handleWebhookCatch errMessage)
  | none => handleWebhook req now conn outcome

/-- The `errorHandler` middleware: a 500 whose `error` field is the
exception message exactly when NODE_ENV is "development", else the generic
"Something went wrong". -/
def errorHandler (nodeEnv : Option String) (errMessage : String) :
    WebhookResponse :=
  { status := 500, success := false,
    message := "Internal server error",
    timestamp := none, id := none,
    error := some (if nodeEnv = some "development" then errMessage
      else "Something went wrong") }

/-! ### Connection lifecycle -/

/-- The regex scan of `extractDatabaseName`:
`url.match(/\/([^/?]+)(\?|$)/)` — leftmost position where a slash is
followed by a nonempty run of characters that are neither slash nor
question mark, with the run terminated by a question mark or the end of
the string; the captured group is that run.  (If the run is instead
terminated by a slash, no backtracking of the greedy group can satisfy
`(\?|$)`, so the engine moves on.) -/
def dbNameScan : List Char → Option String
  | [] => none
  | c :: rest =>
      if c = '/' then
        let run := rest.takeWhile (fun x => x != '/' && x != '?')
        if run.isEmpty then dbNameScan rest
        else
          match rest.drop run.length with
          | [] => some ⟨run⟩
          | d :: _ => if d = '?' then some ⟨run⟩ else dbNameScan rest
      else dbNameScan rest

/-- The method `extractDatabaseName(url)`: the captured group of the first regex
match, or null when there is none. -/
def extractDatabaseName (url : String) : Option String :=
  dbNameScan url.data

/-- The database name the adapter resolves:
`this.extractDatabaseName(this.mongoUrl)` with the fallback "shared-db". -/
def resolvedDbName (url : String) : String :=
  (extractDatabaseName url).getD "shared-db"

/-- Everything up to and including the first "://" of a connection string,
removed; `none` when the separator does not occur. -/
def afterSchemeSep : List Char → Option (List Char)
  | ':' :: '/' :: '/' :: rest => some rest
  | _ :: rest => afterSchemeSep rest
  | [] => none

/-- Follows the spec wording, for comparison with `extractDatabaseName`:
the database name "present in the connection string" of a standard
`scheme://host[:port][/database][?options]` connection string is the
nonempty path segment between the slash that ends the host part and the
options; absent when there is no such slash or the segment is empty. -/
def specDatabaseName (url : String) : Option String :=
  match afterSchemeSep url.data with
  | none => none
  | some rest =>
      match rest.dropWhile (fun c => c != '/' && c != '?') with
      | '/' :: pathRest =>
          let db := pathRest.takeWhile (fun c => c != '?')
          if db.isEmpty then none else some ⟨db⟩
      | _ => none

/-- The field `appPrefix`, the fixed application prefix "gpt-webhook". -/
def appPrefix : String := "gpt-webhook"

/-- The collection `initializeCollections` targets. -/
def collectionName : String := appPrefix ++ "-requests"

/-- An index as created by `createIndex`: field path and direction
(1 ascending, -1 descending). -/
structure MongoIndex where
  field : String
  direction : Int
deriving Repr, DecidableEq

/-- Observable database contents the adapter manipulates: which collections
exist and which indexes exist on them. -/
structure DbData where
  collections : List String
  indexes : List (String × MongoIndex)
deriving Repr, DecidableEq

/-- Success or failure of each external MongoDB call the startup path can
make.  The code only branches on whether each call throws. -/
structure MongoEnv where
  connectOk : Bool
  listOk : Bool
  createOk : Bool
  indexTimestampOk : Bool
  indexUserOk : Bool
deriving Repr

/-- Result of `initializeCollections`: the database contents afterwards,
the value of `this.webhooksCollection` afterwards (it is assigned before
the index-creation calls), and whether the method threw. -/
structure InitOutcome where
  db : DbData
  bound : Option String
  threw : Bool
deriving Repr

/-- The method `initializeCollections`: list collections matching the target name;
if absent, create it, bind `webhooksCollection`, and create the two
indexes (timestamp descending, then userInfo.id ascending); if present,
bind `webhooksCollection` and do nothing else.  Any failure rethrows. -/
def initializeCollections (env : MongoEnv) (d : DbData) : InitOutcome :=
  if !env.listOk then ⟨d, none, true⟩
  else if collectionName ∈ d.collections then ⟨d, some collectionName, false⟩
  else if !env.createOk then ⟨d, none, true⟩
  else
    let d1 : DbData := { d with collections := d.collections ++ [collectionName] }
    if !env.indexTimestampOk then ⟨d1, some collectionName, true⟩
    else
      let d2 : DbData := { d1 with
        indexes := d1.indexes ++ [(collectionName, ⟨"timestamp", -1⟩)] }
      if !env.indexUserOk then ⟨d2, some collectionName, true⟩
      else
        ⟨{ d2 with
           indexes := d2.indexes ++ [(collectionName, ⟨"userInfo.id", 1⟩)] },
         some collectionName, false⟩

/-- The MongoClient options built in `connectToMongoDB`: the auth pair is
attached exactly when `this.mongoUsername && this.mongoPassword` is truthy,
i.e. both environment variables are set to nonempty strings. -/
def buildMongoOptions (user pass : Option String) : Option (String × String) :=
  match user, pass with
  | some u, some p => if u != "" && p != "" then some (u, p) else none
  | _, _ => none

/-- The adapter state the server fields hold after startup. -/
structure ServerState where
  clientSet : Bool
  connected : Bool
  auth : Option (String × String)
  db : Option String
  webhooksCollection : Option String
deriving Repr

/-- The method `connectToMongoDB`: no URL means no client at all; otherwise the client
is constructed (with the options of `buildMongoOptions`) and connected; on
connect failure the catch leaves `db` null; on success `db` is set to the
resolved name BEFORE `initializeCollections` runs, so an initialization
failure is caught with `db` already set. -/
def connectToMongoDB (mongoUrl user pass : Option String) (env : MongoEnv)
    (d : DbData) : ServerState × DbData :=
  match mongoUrl with
  | none =>
      ({ clientSet := false, connected := false, auth := none, db := none,
         webhooksCollection := none }, d)
  | some url =>
      let auth := buildMongoOptions user pass
      if env.connectOk then
        let init := initializeCollections env d
        ({ clientSet := true, connected := true, auth := auth,
           db := some (resolvedDbName url),
           webhooksCollection := init.bound }, init.db)
      else
        ({ clientSet := true, connected := false, auth := auth, db := none,
           webhooksCollection := none }, d)

/-- The `database` field of the `GET /health` response:
`this.db` set means "connected", else "not connected". -/
def healthDatabase (st : ServerState) : String :=
  if st.db.isSome then "connected" else "not connected"

/-- Follows the spec wording, for comparison with `healthDatabase`: the
Persistence Adapter is in the Connected state when the connection is
established and the target collection is initialized (a bound
`webhooksCollection`). -/
def specConnectedState (st : ServerState) : Prop :=
  st.connected = true ∧ st.webhooksCollection.isSome

/-- Outcome of `client.close()` during shutdown. -/
inductive CloseOutcome where
  | ok : CloseOutcome
  | fail : CloseOutcome
deriving Repr, DecidableEq

/-- What a run of `shutdown` did: whether a close was attempted, whether it
failed (only logged), and the process exit code. -/
structure ShutdownRun where
  closeAttempted : Bool
  closeError : Bool
  exitCode : Nat
deriving Repr, DecidableEq

/-- The method `shutdown`: if a client exists, try to close it, catching and logging
any error; then `process.exit(0)` unconditionally. -/
def shutdown (clientSet : Bool) (close : CloseOutcome) : ShutdownRun :=
  if clientSet then
    match close with
    | .ok => { closeAttempted := true, closeError := false, exitCode := 0 }
    | .fail => { closeAttempted := true, closeError := true, exitCode := 0 }
  else
    { closeAttempted := false, closeError := false, exitCode := 0 }

/-- A concrete request around a given JSON body, used to evaluate the
handler at explicit inputs. -/
def sampleReq (body : Json) : Req :=
  { headers := .obj [("host", .str "example.test")]
    body := body
    query := .obj []
    method := "POST"
    url := "/nahui-gpt/income"
    ip := .str "203.0.113.9"
    userAgent := .str "curl/8.0" }

/-- A startup environment in which every MongoDB call succeeds. -/
def envAllOk : MongoEnv :=
  { connectOk := true, listOk := true, createOk := true,
    indexTimestampOk := true, indexUserOk := true }

/-- A startup environment in which the connection succeeds but
`listCollections` throws inside `initializeCollections`. -/
def envListFail : MongoEnv :=
  { connectOk := true, listOk := false, createOk := true,
    indexTimestampOk := true, indexUserOk := true }

/-! ### Theorems -/

/-- C1: for every valid JSON request body, the webhook handler responds
HTTP 200 with `success: true` and a non-null timestamp, whether no
collection is bound (Unconfigured or Degraded adapter) or one is bound
(Connected) and whether the insert succeeds or fails. -/
theorem webhook_always_acknowledged (req : Req) (now : Nat)
    (conn : Option Store) (outcome : InsertOutcome) :
    (handleWebhook req now conn outcome).2.status = 200 ∧
    (handleWebhook req now conn outcome).2.success = true ∧
    (handleWebhook req now conn outcome).2.timestamp = some now := by
  cases conn <;> cases outcome <;> simp [handleWebhook, buildRecord]

/-- C3: a failed insert is swallowed — the store is unchanged, the caller
still receives 200 with `success: true`, no error field, and the `id`
field absent. -/
theorem insert_failure_swallowed (req : Req) (now : Nat) (store : Store) :
    (handleWebhook req now (some store) .err).1 = some store ∧
    (handleWebhook req now (some store) .err).2.status = 200 ∧
    (handleWebhook req now (some store) .err).2.success = true ∧
    (handleWebhook req now (some store) .err).2.id = none ∧
    (handleWebhook req now (some store) .err).2.error = none := by
  simp [handleWebhook, buildRecord]

/-- C9: shutdown always exits with code 0, and a failing close is only
recorded (logged), never changing the exit code. -/
theorem shutdown_always_exits_zero (clientSet : Bool) (close : CloseOutcome) :
    (shutdown clientSet close).exitCode = 0 ∧
    (shutdown true .fail).closeError = true ∧
    (shutdown true .fail).exitCode = (shutdown true .ok).exitCode := by
  cases clientSet <;> cases close <;> simp [shutdown]

/-- C10: the credential pair reaches the client options only when both
environment variables hold (nonempty) values; with exactly one of the two
set, the options carry no auth and the connection is still attempted. -/
theorem credentials_require_both (url : String) (user pass : Option String)
    (env : MongoEnv) (d : DbData)
    (h : (user = none ∧ pass ≠ none) ∨ (user ≠ none ∧ pass = none)) :
    (connectToMongoDB (some url) user pass env d).1.auth = none ∧
    (connectToMongoDB (some url) user pass env d).1.clientSet = true ∧
    (∀ u p : Option String, buildMongoOptions u p ≠ none →
       u ≠ none ∧ p ≠ none) := by
  refine ⟨?_, ?_, ?_⟩
  · rcases h with ⟨hu, _⟩ | ⟨_, hp⟩
    · subst hu
      cases henv : env.connectOk <;>
        simp [connectToMongoDB, buildMongoOptions, henv]
    · subst hp
      cases user <;> cases henv : env.connectOk <;>
        simp [connectToMongoDB, buildMongoOptions, henv]
  · cases henv : env.connectOk <;> simp [connectToMongoDB, henv]
  · intro u p hne
    cases u <;> cases p <;> simp [buildMongoOptions] at hne ⊢

/-- Witness for C10 at a concrete environment: username set, password
unset. -/
theorem credentials_require_both_witness :
    (((some "root" : Option String) = none ∧ (none : Option String) ≠ none) ∨
      ((some "root" : Option String) ≠ none ∧ (none : Option String) = none)) ∧
    (connectToMongoDB (some "mongodb://h/db") (some "root") none envAllOk
        ⟨[], []⟩).1.auth = none :=
  ⟨Or.inr ⟨by simp, rfl⟩,
   (credentials_require_both "mongodb://h/db" (some "root") none envAllOk
      ⟨[], []⟩ (Or.inr ⟨by simp, rfl⟩)).1⟩

/-- C5 is refuted: with NODE_ENV unset (so not a development
configuration), an exception thrown inside `handleWebhook` is answered by
its catch-block with a 500 whose error field is the exception message
itself ("boom"), not a generic string. -/
theorem handler_catch_leaks_message_cex :
    (handleWebhookRun none (some (some "boom")) (sampleReq (.obj [])) 0 none
        .ok).2.status = 500 ∧
    (handleWebhookRun none (some (some "boom")) (sampleReq (.obj [])) 0 none
        .ok).2.error = some "boom" :=
  ⟨rfl, rfl⟩

/-- C5 amended: an exception inside `handleWebhook` is caught by its own
catch-block, which answers 500 and always places the exception message in
the error field, in every configuration; only the `errorHandler`
middleware redacts the message outside a development configuration. -/
theorem exception_detail_by_path (nodeEnv : Option String) (m : String)
    (req : Req) (now : Nat) (conn : Option Store) (outcome : InsertOutcome) :
    (handleWebhookRun nodeEnv (some (some m)) req now conn outcome).2.status
      = 500 ∧
    (handleWebhookRun nodeEnv (some (some m)) req now conn outcome).2.error
      = some m ∧
    (errorHandler nodeEnv m).status = 500 ∧
    (nodeEnv = some "development" → (errorHandler nodeEnv m).error = some m) ∧
    (nodeEnv ≠ some "development" →
      (errorHandler nodeEnv m).error = some "Something went wrong") := by
  refine ⟨rfl, rfl, rfl, ?_, ?_⟩ <;> intro h <;> simp [errorHandler, h]

/-- Witness for C5 amended, in a development and a non-development
configuration. -/
theorem exception_detail_by_path_witness :
    ((some "development" : Option String) = some "development" ∧
      (errorHandler (some "development") "boom").error = some "boom") ∧
    ((none : Option String) ≠ some "development" ∧
      (errorHandler none "boom").error = some "Something went wrong") :=
  ⟨⟨rfl,
    (exception_detail_by_path (some "development") "boom"
        (sampleReq (.obj [])) 0 none .ok).2.2.2.1 rfl⟩,
   ⟨by simp,
    (exception_detail_by_path none "boom"
        (sampleReq (.obj [])) 0 none .ok).2.2.2.2 (by simp)⟩⟩

/-! Helper lemmas about the regex scan of `extractDatabaseName`. -/

theorem string_mk_data (s : String) : String.mk s.data = s := rfl

theorem data_ne_nil_of_ne_empty {s : String} (h : s ≠ "") : s.data ≠ [] := by
  intro hd
  exact h (by cases s; simp_all)

theorem dbNameScan_cons_ne (c : Char) (rest : List Char) (hc : ¬ c = '/') :
    dbNameScan (c :: rest) = dbNameScan rest := by
  rw [dbNameScan]
  simp [hc]

theorem dbNameScan_append_ne (l rest : List Char) (h : ∀ c ∈ l, ¬ c = '/') :
    dbNameScan (l ++ rest) = dbNameScan rest := by
  induction l with
  | nil => rfl
  | cons c t ih =>
      rw [List.cons_append, dbNameScan_cons_ne c _ (h c (by simp)),
        ih (fun d hd => h d (by simp [hd]))]

theorem dbNameScan_double_slash (l : List Char) :
    dbNameScan ('/' :: '/' :: l) = dbNameScan ('/' :: l) := by
  rw [dbNameScan]
  simp [List.takeWhile_cons]

/-- At a slash whose following run is terminated by another slash, the
regex cannot complete a match there and the scan moves on. -/
theorem dbNameScan_slash_then_slash (l t : List Char)
    (hl : ∀ c ∈ l, (c != '/' && c != '?') = true) :
    dbNameScan ('/' :: (l ++ '/' :: t)) = dbNameScan ('/' :: t) := by
  have hslash : ∀ c ∈ l, ¬ c = '/' := by
    intro c hc
    have := hl c hc
    simp only [Bool.and_eq_true, bne_iff_ne] at this
    exact this.1
  have hrun : (l ++ '/' :: t).takeWhile (fun x => x != '/' && x != '?') = l := by
    rw [List.takeWhile_append_of_pos hl]
    simp [List.takeWhile_cons]
  rw [dbNameScan]
  rw [if_pos rfl, hrun]
  rcases hl2 : l.isEmpty with _ | _
  · have hlne : l ≠ [] := by simpa [List.isEmpty_iff] using hl2
    rw [if_neg (by simp [hl2])]
    rw [List.drop_left]
    show (if '/' = '?' then some (⟨l⟩ : String) else dbNameScan (l ++ '/' :: t))
      = dbNameScan ('/' :: t)
    rw [if_neg (by decide), dbNameScan_append_ne l ('/' :: t) hslash]
  · have : l = [] := by simpa [List.isEmpty_iff] using hl2
    subst this
    simp

/-- At a slash whose following nonempty run is terminated by a question
mark or the end of the string, the regex matches and captures the run. -/
theorem dbNameScan_slash_hit (db tail : List Char) (hne : db ≠ [])
    (hdb : ∀ c ∈ db, (c != '/' && c != '?') = true)
    (ht : tail = [] ∨ ∃ t, tail = '?' :: t) :
    dbNameScan ('/' :: (db ++ tail)) = some ⟨db⟩ := by
  have hrun : (db ++ tail).takeWhile (fun x => x != '/' && x != '?') = db := by
    rcases ht with rfl | ⟨t, rfl⟩
    · rw [List.takeWhile_append_of_pos hdb]
      simp
    · rw [List.takeWhile_append_of_pos hdb]
      simp [List.takeWhile_cons]
  rw [dbNameScan]
  rw [if_pos rfl, hrun]
  rw [if_neg (by simp [List.isEmpty_iff, hne])]
  rw [List.drop_left]
  rcases ht with rfl | ⟨t, rfl⟩
  · rfl
  · simp

/-- C6 is refuted at the connection string "mongodb://localhost:27017":
it contains no database name (no path after the host part), yet the
adapter resolves "localhost:27017" — the host — as the database name
instead of falling back to "shared-db". -/
theorem extract_database_name_cex :
    extractDatabaseName "mongodb://localhost:27017" = some "localhost:27017" ∧
    specDatabaseName "mongodb://localhost:27017" = none ∧
    resolvedDbName "mongodb://localhost:27017" ≠ "shared-db" := by
  refine ⟨rfl, rfl, by decide⟩

/-- C6 amended: the regex captures the first slash-delimited run of
non-slash non-question-mark characters that is terminated by a question
mark or the end of the string.  On connection strings with a path this is
the database name; on connection strings without a path it is the host
part, so the fallback "shared-db" is not used there; the fallback is used
when the regex finds no match at all, e.g. on a trailing slash. -/
theorem extract_database_name_behaviour (host db opts : String)
    (hhost : ∀ c ∈ host.data, (c != '/' && c != '?') = true)
    (hhostne : host ≠ "")
    (hdb : ∀ c ∈ db.data, (c != '/' && c != '?') = true)
    (hdbne : db ≠ "") :
    extractDatabaseName ("mongodb://" ++ host ++ "/" ++ db) = some db ∧
    extractDatabaseName ("mongodb://" ++ host ++ "/" ++ db ++ "?" ++ opts)
      = some db ∧
    extractDatabaseName ("mongodb://" ++ host) = some host ∧
    extractDatabaseName ("mongodb://" ++ host ++ "/") = none ∧
    resolvedDbName ("mongodb://" ++ host ++ "/") = "shared-db" ∧
    resolvedDbName ("mongodb://" ++ host) = host := by
  have hpre : ∀ c ∈ ['m', 'o', 'n', 'g', 'o', 'd', 'b', ':'], ¬ c = '/' := by
    decide
  have h1 : extractDatabaseName ("mongodb://" ++ host ++ "/" ++ db)
      = some db := by
    show dbNameScan ("mongodb://" ++ host ++ "/" ++ db).data = some db
    have hs : ("mongodb://" ++ host ++ "/" ++ db).data
        = ['m', 'o', 'n', 'g', 'o', 'd', 'b', ':']
          ++ ('/' :: '/' :: (host.data ++ '/' :: db.data)) := by
      simp [String.data_append]
    rw [hs, dbNameScan_append_ne _ _ hpre, dbNameScan_double_slash,
      dbNameScan_slash_then_slash host.data _ hhost]
    have := dbNameScan_slash_hit db.data [] (data_ne_nil_of_ne_empty hdbne)
      hdb (Or.inl rfl)
    simpa [string_mk_data] using this
  have h2 : extractDatabaseName
      ("mongodb://" ++ host ++ "/" ++ db ++ "?" ++ opts) = some db := by
    show dbNameScan ("mongodb://" ++ host ++ "/" ++ db ++ "?" ++ opts).data
      = some db
    have hs : ("mongodb://" ++ host ++ "/" ++ db ++ "?" ++ opts).data
        = ['m', 'o', 'n', 'g', 'o', 'd', 'b', ':']
          ++ ('/' :: '/'
              :: (host.data ++ '/' :: (db.data ++ '?' :: opts.data))) := by
      simp [String.data_append]
    rw [hs, dbNameScan_append_ne _ _ hpre, dbNameScan_double_slash,
      dbNameScan_slash_then_slash host.data _ hhost]
    have := dbNameScan_slash_hit db.data ('?' :: opts.data)
      (data_ne_nil_of_ne_empty hdbne) hdb (Or.inr ⟨opts.data, rfl⟩)
    simpa [string_mk_data] using this
  have h3 : extractDatabaseName ("mongodb://" ++ host) = some host := by
    show dbNameScan ("mongodb://" ++ host).data = some host
    have hs : ("mongodb://" ++ host).data
        = ['m', 'o', 'n', 'g', 'o', 'd', 'b', ':']
          ++ ('/' :: '/' :: host.data) := by
      simp [String.data_append]
    rw [hs, dbNameScan_append_ne _ _ hpre, dbNameScan_double_slash]
    have := dbNameScan_slash_hit host.data []
      (data_ne_nil_of_ne_empty hhostne) hhost (Or.inl rfl)
    simpa [string_mk_data] using this
  have h4 : extractDatabaseName ("mongodb://" ++ host ++ "/") = none := by
    show dbNameScan ("mongodb://" ++ host ++ "/").data = none
    have hs : ("mongodb://" ++ host ++ "/").data
        = ['m', 'o', 'n', 'g', 'o', 'd', 'b', ':']
          ++ ('/' :: '/' :: (host.data ++ '/' :: [])) := by
      simp [String.data_append]
    rw [hs, dbNameScan_append_ne _ _ hpre, dbNameScan_double_slash,
      dbNameScan_slash_then_slash host.data [] hhost]
    rfl
  refine ⟨h1, h2, h3, h4, ?_, ?_⟩
  · rw [resolvedDbName, h4]
    rfl
  · rw [resolvedDbName, h3]
    rfl

/-- Witness for C6 amended at a concrete host, database name and option
string. -/
theorem extract_database_name_behaviour_witness :
    ((∀ c ∈ ("localhost:27017" : String).data, (c != '/' && c != '?') = true) ∧
      ("localhost:27017" : String) ≠ "" ∧
      (∀ c ∈ ("mydb" : String).data, (c != '/' && c != '?') = true) ∧
      ("mydb" : String) ≠ "") ∧
    extractDatabaseName "mongodb://localhost:27017/mydb" = some "mydb" ∧
    resolvedDbName "mongodb://localhost:27017/" = "shared-db" := by
  refine ⟨⟨by decide, by decide, by decide, by decide⟩, ?_, ?_⟩
  · exact (extract_database_name_behaviour "localhost:27017" "mydb" "x"
      (by decide) (by decide) (by decide) (by decide)).1
  · exact (extract_database_name_behaviour "localhost:27017" "mydb" "x"
      (by decide) (by decide) (by decide) (by decide)).2.2.2.2.1

/-- C4 is refuted: with a connection string supplied, `client.connect`
succeeding and `listCollections` then throwing, the collection is never
initialized (`webhooksCollection` stays null), so the adapter is not in
the Connected state — yet health reports "connected", because `this.db`
was assigned before `initializeCollections` ran. -/
theorem health_connected_despite_init_failure_cex :
    healthDatabase (connectToMongoDB (some "mongodb://h/db") none none
        envListFail ⟨[], []⟩).1 = "connected" ∧
    (connectToMongoDB (some "mongodb://h/db") none none
        envListFail ⟨[], []⟩).1.webhooksCollection = none ∧
    ¬ specConnectedState (connectToMongoDB (some "mongodb://h/db") none none
        envListFail ⟨[], []⟩).1 :=
  ⟨rfl, rfl, fun h => absurd h.2 (by decide)⟩

/-- C4 amended: health reports "connected" exactly when a connection
string was supplied and `client.connect` succeeded; the db handle is
assigned before collection initialization, so a failed initialization
still reports "connected". -/
theorem health_reflects_db_handle (mongoUrl user pass : Option String)
    (env : MongoEnv) (d : DbData) :
    healthDatabase (connectToMongoDB mongoUrl user pass env d).1 = "connected"
      ↔ (mongoUrl.isSome = true ∧ env.connectOk = true) := by
  cases mongoUrl <;> cases henv : env.connectOk <;>
    simp [connectToMongoDB, healthDatabase, henv]

/-- C7 is refuted: when the target collection already exists but carries
no indexes, `initializeCollections` binds it and returns without creating
any index — the two indexes stay absent. -/
theorem indexes_not_created_when_collection_exists_cex :
    (initializeCollections envAllOk ⟨[collectionName], []⟩).db.indexes = [] ∧
    (initializeCollections envAllOk ⟨[collectionName], []⟩).db.collections
      = [collectionName] ∧
    (initializeCollections envAllOk ⟨[collectionName], []⟩).bound
      = some collectionName ∧
    (initializeCollections envAllOk ⟨[collectionName], []⟩).threw = false :=
  ⟨rfl, rfl, rfl, rfl⟩

/-- C7 amended: when the target collection ("gpt-webhook" + "-requests")
is absent it is created together with the two indexes (timestamp
descending, userInfo.id ascending); when it already exists, no index is
checked or created; in either case the bound collection is exactly the
prefixed one. -/
theorem initialize_collections_contract (env : MongoEnv) (d : DbData)
    (hlist : env.listOk = true) (hcreate : env.createOk = true)
    (hi1 : env.indexTimestampOk = true) (hi2 : env.indexUserOk = true) :
    collectionName = "gpt-webhook-requests" ∧
    (collectionName ∉ d.collections →
      initializeCollections env d =
        ⟨⟨d.collections ++ [collectionName],
          d.indexes ++ [(collectionName, ⟨"timestamp", -1⟩),
            (collectionName, ⟨"userInfo.id", 1⟩)]⟩,
          some collectionName, false⟩) ∧
    (collectionName ∈ d.collections →
      initializeCollections env d = ⟨d, some collectionName, false⟩) ∧
    (initializeCollections env d).bound = some collectionName := by
  refine ⟨rfl, ?_, ?_, ?_⟩
  · intro hnotin
    simp [initializeCollections, hlist, hcreate, hi1, hi2, hnotin]
  · intro hin
    simp [initializeCollections, hlist, hin]
  · by_cases hin : collectionName ∈ d.collections <;>
      simp [initializeCollections, hlist, hcreate, hi1, hi2, hin]

/-- Witness for C7 amended on an empty database. -/
theorem initialize_collections_contract_witness :
    (envAllOk.listOk = true ∧ envAllOk.createOk = true ∧
      envAllOk.indexTimestampOk = true ∧ envAllOk.indexUserOk = true ∧
      collectionName ∉ ([] : List String)) ∧
    initializeCollections envAllOk ⟨[], []⟩ =
      ⟨⟨[collectionName],
        [(collectionName, ⟨"timestamp", -1⟩),
          (collectionName, ⟨"userInfo.id", 1⟩)]⟩,
        some collectionName, false⟩ :=
  ⟨⟨rfl, rfl, rfl, rfl, by simp⟩,
    by
      have h := (initialize_collections_contract envAllOk ⟨[], []⟩
        rfl rfl rfl rfl).2.1 (by simp)
      simpa using h⟩

/-- C8 is refuted on timestamps: two identical payloads processed at the
same clock reading (the clock `new Date()` has finite granularity, so two
separate requests can observe the same instant) are stored as two records
with distinct identifiers 0 and 1 but EQUAL timestamps. -/
theorem duplicate_payload_equal_timestamps_cex :
    ((handleWebhook (sampleReq (.obj [("message", .str "hi")])) 5
        ((handleWebhook (sampleReq (.obj [("message", .str "hi")])) 5
          (some ⟨0, []⟩) .ok).1) .ok).1.map
      (fun s => s.docs.map (fun dc => (dc.1, dc.2.timestamp))))
      = some [(0, 5), (1, 5)] := rfl

/-- C8 amended: sending the identical payload twice (both inserts
succeeding) appends two independent records with distinct store-assigned
identifiers and no deduplication; each record carries its own receipt
instant, so the stored timestamps are distinct exactly when the two
receipt instants differ. -/
theorem duplicate_payloads_stored_independently (req : Req)
    (now1 now2 : Nat) (store : Store) :
    (handleWebhook req now2
        ((handleWebhook req now1 (some store) .ok).1) .ok).1
      = some ⟨store.nextId + 2,
          store.docs ++
            [(store.nextId,
              { buildRecord req now1 with id := some store.nextId }),
              (store.nextId + 1,
              { buildRecord req now2 with id := some (store.nextId + 1) })]⟩ ∧
    store.nextId ≠ store.nextId + 1 ∧
    (now1 ≠ now2 →
      ({ buildRecord req now1 with id := some store.nextId }).timestamp ≠
      ({ buildRecord req now2 with
          id := some (store.nextId + 1) }).timestamp) := by
  refine ⟨?_, by omega, ?_⟩
  · simp [handleWebhook, Store.insertOne]
  · intro h
    simpa [buildRecord] using h

/-- Witness for C8 amended: receipt instants 0 and 1 give distinct stored
timestamps. -/
theorem duplicate_payloads_stored_independently_witness :
    (0 : Nat) ≠ 1 ∧
    ({ buildRecord (sampleReq (.obj [])) 0 with id := some 0 }).timestamp ≠
    ({ buildRecord (sampleReq (.obj [])) 1 with id := some 1 }).timestamp :=
  ⟨by decide,
    (duplicate_payloads_stored_independently (sampleReq (.obj [])) 0 1
      ⟨0, []⟩).2.2 (by decide)⟩

/-! Helper lemmas: a stringified JSON value is never the empty string. -/

theorem ne_empty_of_length_pos {s : String} (h : 0 < s.length) : s ≠ "" := by
  intro he
  subst he
  exact absurd h (by decide)

theorem natReprAux_length_pos (fuel n : Nat) :
    0 < (natReprAux (fuel + 1) n).length := by
  rw [natReprAux]
  split
  · simp
  · simp

theorem natRepr_length_pos (n : Nat) : 0 < (natRepr n).length :=
  natReprAux_length_pos n n

theorem intRepr_length_pos (n : Int) : 0 < (intRepr n).length := by
  rw [intRepr]
  split
  · rw [String.length_append]
    have h := natRepr_length_pos n.natAbs
    omega
  · exact natRepr_length_pos n.toNat

theorem stringify_length_pos (j : Json) : 0 < j.stringify.length := by
  cases j with
  | null => decide
  | bool b => cases b <;> decide
  | num n => exact intRepr_length_pos n
  | str s =>
      show 0 < (quoteString s).length
      rw [quoteString, String.length_append, String.length_append]
      have h1 : ("\"" : String).length = 1 := rfl
      omega
  | arr xs =>
      show 0 < ("[" ++ stringifyList xs ++ "]").length
      rw [String.length_append, String.length_append]
      have h1 : ("[" : String).length = 1 := rfl
      omega
  | obj fs =>
      show 0 < ("\x7b" ++ stringifyFields fs ++ "\x7d").length
      rw [String.length_append, String.length_append]
      have h1 : ("\x7b" : String).length = 1 := rfl
      omega

theorem stringify_ne_empty (j : Json) : j.stringify ≠ "" :=
  ne_empty_of_length_pos (stringify_length_pos j)

/-- C2 is refuted: the message field of the HTTP response is the fixed
acknowledgment string, not the derived message — a payload with
message = "hi" derives and stores "hi", yet the response message is
"Webhook received and processed", not "hi".  Moreover the derivation is
by JS truthiness rather than presence: a present-but-empty message field
is skipped in favour of the text field. -/
theorem response_message_not_derived_cex :
    (handleWebhook (sampleReq (.obj [("message", .str "hi")])) 0 none
        .ok).2.message = "Webhook received and processed" ∧
    deriveMessage (.obj [("message", .str "hi")]) = .str "hi" ∧
    (handleWebhook (sampleReq (.obj [("message", .str "hi")])) 0 none
        .ok).2.message ≠ "hi" ∧
    deriveMessage (.obj [("message", .str ""), ("text", .str "t")])
      = .str "t" :=
  ⟨rfl, rfl, by decide, rfl⟩

/-- C2 amended: the derived message is the first truthy value among the
payload message field, the payload text field and the JSON-serialization
of the full payload; it is never the empty string; it is exactly the
stored message; and the message field of the HTTP response is always the
fixed string "Webhook received and processed". -/
theorem message_derivation_contract (req : Req) (now : Nat) (store : Store) :
    (handleWebhook req now (some store) .ok).1
      = some ⟨store.nextId + 1,
          store.docs ++ [(store.nextId,
            { buildRecord req now with id := some store.nextId })]⟩ ∧
    (buildRecord req now).message = deriveMessage req.body ∧
    (handleWebhook req now (some store) .ok).2.message
      = "Webhook received and processed" ∧
    (∀ m, req.body.getField "message" = some m → m.truthy = true →
      deriveMessage req.body = m) ∧
    (∀ t, optTruthy (req.body.getField "message") = false →
      req.body.getField "text" = some t → t.truthy = true →
      deriveMessage req.body = t) ∧
    (optTruthy (req.body.getField "message") = false →
      optTruthy (req.body.getField "text") = false →
      deriveMessage req.body = .str req.body.stringify) ∧
    (∀ s, deriveMessage req.body = .str s → s ≠ "") := by
  refine ⟨?_, rfl, rfl, ?_, ?_, ?_, ?_⟩
  · simp [handleWebhook, Store.insertOne]
  · intro m hm ht
    rw [deriveMessage, hm]
    simp [jsOrElse, ht]
  · intro t hmf htf htt
    rw [deriveMessage, htf]
    cases hgm : req.body.getField "message" with
    | none => simp [jsOrElse, htt]
    | some m =>
        rw [hgm] at hmf
        simp [optTruthy] at hmf
        simp [jsOrElse, hmf, htt]
  · intro hmf htf
    rw [deriveMessage]
    cases hgm : req.body.getField "message" with
    | none =>
        cases hgt : req.body.getField "text" with
        | none => simp [jsOrElse]
        | some t =>
            rw [hgt] at htf
            simp [optTruthy] at htf
            simp [jsOrElse, htf]
    | some m =>
        rw [hgm] at hmf
        simp [optTruthy] at hmf
        cases hgt : req.body.getField "text" with
        | none => simp [jsOrElse, hmf]
        | some t =>
            rw [hgt] at htf
            simp [optTruthy] at htf
            simp [jsOrElse, hmf, htf]
  · intro s hs
    rw [deriveMessage] at hs
    cases hgm : req.body.getField "message" with
    | some m =>
        rw [hgm] at hs
        by_cases htm : m.truthy = true
        · rw [jsOrElse, if_pos htm] at hs
          subst hs
          simpa [Json.truthy] using htm
        · rw [jsOrElse, if_neg htm] at hs
          cases hgt : req.body.getField "text" with
          | some t =>
              rw [hgt] at hs
              by_cases htt : t.truthy = true
              · rw [jsOrElse, if_pos htt] at hs
                subst hs
                simpa [Json.truthy] using htt
              · rw [jsOrElse, if_neg htt] at hs
                cases hs
                exact stringify_ne_empty req.body
          | none =>
              rw [hgt] at hs
              cases hs
              exact stringify_ne_empty req.body
    | none =>
        rw [hgm] at hs
        rw [jsOrElse] at hs
        cases hgt : req.body.getField "text" with
        | some t =>
            rw [hgt] at hs
            by_cases htt : t.truthy = true
            · rw [jsOrElse, if_pos htt] at hs
              subst hs
              simpa [Json.truthy] using htt
            · rw [jsOrElse, if_neg htt] at hs
              cases hs
              exact stringify_ne_empty req.body
        | none =>
            rw [hgt] at hs
            cases hs
            exact stringify_ne_empty req.body

/-- Witness for C2 amended: a truthy message field is taken verbatim, and
with neither message nor text present the serialized payload is taken. -/
theorem message_derivation_contract_witness :
    ((sampleReq (.obj [("message", .str "hi")])).body.getField "message"
        = some (.str "hi") ∧
      (Json.str "hi").truthy = true ∧
      deriveMessage (sampleReq (.obj [("message", .str "hi")])).body
        = .str "hi") ∧
    (optTruthy ((sampleReq (.obj [("a", .num 1)])).body.getField "message")
        = false ∧
      optTruthy ((sampleReq (.obj [("a", .num 1)])).body.getField "text")
        = false ∧
      deriveMessage (sampleReq (.obj [("a", .num 1)])).body
        = .str (sampleReq (.obj [("a", .num 1)])).body.stringify) :=
  ⟨⟨rfl, rfl,
    (message_derivation_contract (sampleReq (.obj [("message", .str "hi")]))
        0 ⟨0, []⟩).2.2.2.1 (.str "hi") rfl rfl⟩,
   ⟨rfl, rfl,
    (message_derivation_contract (sampleReq (.obj [("a", .num 1)]))
        0 ⟨0, []⟩).2.2.2.2.2.1 rfl rfl⟩⟩

end GPTWebhook
